import Mathlib

/-!
Verification of the domain-flipper pipeline (`agent.py`).

The script derives candidate domain names from trending keywords, scores
them with arithmetic heuristics, filters and ranks them, and assembles a
"flipping strategy". All scoring functions are pure; the only external
effect (the HTTP search call) is modelled by passing the response as a
value. Python float division is modelled with `ℚ` (every value produced
by the scoring formulas is a multiple of 1/2, so rationals are exact).
A Python runtime fault (`ZeroDivisionError`) is modelled with `Except`.
-/

/-- Substring test on lists of characters: `charsContain pat s` is true
when `pat` occurs contiguously inside `s`, mirroring Python's `in`. -/
def charsContain (pat : List Char) : List Char → Bool
  | [] => pat.isPrefixOf []
  | c :: t => pat.isPrefixOf (c :: t) || charsContain pat t

/-- Python `pat in s` on strings. -/
def strContains (s pat : String) : Bool :=
  charsContain pat.toList s.toList

/-- Python `s.endswith(pat)`. -/
def strEndsWith (s pat : String) : Bool :=
  pat.toList.isSuffixOf s.toList

/-- Python `s.split('.')[0]` as a character list: everything before the
first dot (the whole string when there is no dot). -/
def splitDotHead : List Char → List Char
  | [] => []
  | c :: t => if c = '.' then [] else c :: splitDotHead t

/-- A scored trend record, as built in `find_trending_keywords`. -/
structure TrendRecord where
  keyword : String
  score : Nat
  commercial_value : String

/-- A repository record from the search API (`name`, optional `description`). -/
structure Repo where
  name : String
  description : Option String

/-- An HTTP response for the repository search: status code and the
optional `items` array of the JSON body. -/
structure HttpResponse where
  status_code : Nat
  items : Option (List Repo)

/-- One evaluated domain, as built in `evaluate_domains`. -/
structure Evaluation where
  domain : String
  estimated_value : Nat
  registration_cost : String
  profit_potential : ℚ
  time_to_sell : String
  marketing_strategy : List String

/-- The aggregate strategy built by `create_flipping_strategy`. -/
structure Strategy where
  portfolio : List Evaluation
  total_investment : Nat
  projected_profit : ℚ
  roi_percentage : ℚ
  portfolio_management : List (String × String)
  scaling_plan : List (String × String)

/-- `search_repos`: returns the `items` list on HTTP 200 (empty when the
body has no `items` key), and an empty list on any other status. -/
def search_repos (response : HttpResponse) : List Repo :=
  if response.status_code = 200 then response.items.getD [] else []

/-- The whitespace tokenisation step of `extract_keywords`: concatenate
`name` and `description`, lowercase, replace hyphens with spaces, split
on whitespace (Python `str.split()` drops empty fields). -/
def keywordTokens (repo : Repo) : List String :=
  let text := repo.name ++ " " ++ repo.description.getD ""
  (((text.toLower).replace "-" " ").split (fun c => c.isWhitespace)).filter
    (fun w => !w.isEmpty)

/-- `extract_keywords`: keep tokens that are longer than 3 characters and
purely alphabetic, and return at most 5 of them. -/
def extract_keywords (repo : Repo) : List String :=
  let valuable_words := (keywordTokens repo).filter
    (fun word => decide (3 < word.length) && word.toList.all Char.isAlpha)
  valuable_words.take 5

/-- `calculate_trend_potential`: base 50, +30 for technology terms,
+25 for business terms, +20 for length ≤ 8, capped at 100. -/
def calculate_trend_potential (trend : String) : Nat :=
  let score := 50
  let score := if ["ai", "automation", "saas", "app"].any
      (fun tech => strContains trend tech) then score + 30 else score
  let score := if ["income", "money", "profit", "business"].any
      (fun biz => strContains trend biz) then score + 25 else score
  let score := if trend.length ≤ 8 then score + 20 else score
  min score 100

/-- `estimate_commercial_value`: bucket a trend into the fixed value
strings, checking the high-value keyword set first, then the medium one. -/
def estimate_commercial_value (trend : String) : String :=
  if ["ai", "crypto", "saas", "app"].any (fun keyword => strContains trend keyword) then
    "$1000+"
  else if ["tool", "pro", "business"].any (fun keyword => strContains trend keyword) then
    "$500-1000"
  else
    "$100-500"

/-- `find_trending_keywords`: the GitHub-derived trends (network input,
passed as a parameter) plus the fixed technology and business lists,
scored, sorted by score descending (Python's stable sort), top 20. -/
def find_trending_keywords (github_trends : List String) : List TrendRecord :=
  let tech_trends := ["ai-agents", "automation", "serverless", "nocode", "defi",
    "metaverse", "nft", "crypto", "blockchain", "web3",
    "saas", "productivity", "remote-work", "sustainability"]
  let business_trends := ["digital-nomad", "side-hustle", "passive-income", "ecommerce",
    "dropshipping", "affiliate", "influencer", "coaching"]
  let all_trends := github_trends ++ tech_trends ++ business_trends
  let scored_trends := all_trends.map (fun trend =>
    { keyword := trend
      score := calculate_trend_potential trend
      commercial_value := estimate_commercial_value trend })
  (scored_trends.mergeSort (fun a b => decide (b.score ≤ a.score))).take 20

/-- `generate_domain_ideas`: 8 template variants for each of the first 10
keywords, then pairwise combinations of the first 5 keywords with the
records at indices i+1 through 7. -/
def generate_domain_ideas (trending_keywords : List TrendRecord) : List String :=
  let singles := (trending_keywords.take 10).flatMap (fun trend =>
    let keyword := trend.keyword
    [keyword ++ ".com", keyword ++ ".ai", keyword ++ ".io",
     "get" ++ keyword ++ ".com", "use" ++ keyword ++ ".com",
     keyword ++ "app.com", keyword ++ "tool.com", keyword ++ "pro.com"])
  let combos := (trending_keywords.take 5).enum.flatMap (fun p =>
    ((trending_keywords.take 8).drop (p.1 + 1)).flatMap (fun trend2 =>
      [p.2.keyword ++ trend2.keyword ++ ".com",
       p.2.keyword ++ "-" ++ trend2.keyword ++ ".com"]))
  singles ++ combos

/-- `estimate_domain_value`: base 100, TLD bonus (first match of .com/.ai/.io),
length bonus on the label before the first dot, and +200 for each of the six
marketing keywords occurring as a substring of the label. -/
def estimate_domain_value (domain : String) : Nat :=
  let base_value := 100
  let base_value :=
    if strEndsWith domain ".com" then base_value + 200
    else if strEndsWith domain ".ai" then base_value + 150
    else if strEndsWith domain ".io" then base_value + 100
    else base_value
  let domain_name : String := ⟨splitDotHead domain.toList⟩
  let base_value :=
    if domain_name.length ≤ 6 then base_value + 300
    else if domain_name.length ≤ 10 then base_value + 100
    else base_value
  ["ai", "app", "tool", "pro", "get", "use"].foldl
    (fun acc keyword => if strContains domain_name keyword then acc + 200 else acc)
    base_value

/-- `calculate_profit_potential`: 15 × min(estimated_value / 100, 50) − 15,
floored at 0 (Python float arithmetic, exact on these values). -/
def calculate_profit_potential (domain : String) : ℚ :=
  let estimated_value : ℚ := (estimate_domain_value domain : ℚ)
  let registration_cost : ℚ := 15
  let profit_multiplier := min (estimated_value / 100) 50
  max (registration_cost * profit_multiplier - registration_cost) 0

/-- `estimate_sell_time`: bucket by estimated value. -/
def estimate_sell_time (domain : String) : String :=
  let value := estimate_domain_value domain
  if 500 < value then "1-3 months"
  else if 200 < value then "3-6 months"
  else "6-12 months"

/-- `create_domain_marketing`: a fixed list of four strategies. -/
def create_domain_marketing (_domain : String) : List String :=
  ["List on domain marketplaces (Sedo, Flippa)",
   "Direct outreach to relevant businesses",
   "Social media promotion",
   "Domain auction participation"]

/-- `evaluate_domains`: evaluate the first 50 candidates, keep those with
profit potential above 500, and sort descending by profit potential. -/
def evaluate_domains (domain_ideas : List String) : List Evaluation :=
  let evals := (domain_ideas.take 50).map (fun domain =>
    { domain := domain
      estimated_value := estimate_domain_value domain
      registration_cost := "$12-15"
      profit_potential := calculate_profit_potential domain
      time_to_sell := estimate_sell_time domain
      marketing_strategy := create_domain_marketing domain })
  let valuable_domains := evals.filter (fun e => decide ((500 : ℚ) < e.profit_potential))
  valuable_domains.mergeSort (fun a b => decide (b.profit_potential ≤ a.profit_potential))

/-- `create_flipping_strategy`: the portfolio is the first 20 entries; the
ROI division faults (Python `ZeroDivisionError`) when the list is empty,
modelled as `Except.error`. -/
def create_flipping_strategy (valuable_domains : List Evaluation) : Except String Strategy :=
  let top := valuable_domains.take 20
  let total_investment := top.length * 15
  let projected_profit := (top.map (fun d => d.profit_potential)).sum
  if total_investment = 0 then
    Except.error "ZeroDivisionError: division by zero"
  else
    Except.ok
      { portfolio := top
        total_investment := total_investment
        projected_profit := projected_profit
        roi_percentage := projected_profit / (total_investment : ℚ) * 100
        portfolio_management :=
          [("acquisition_budget", "$300/month"),
           ("renewal_strategy", "Renew high-value domains only"),
           ("selling_timeline", "6-12 months average hold time"),
           ("profit_reinvestment", "50% reinvested in new domains")]
        scaling_plan :=
          [("month_1_3", "Acquire and test initial portfolio"),
           ("month_4_6", "Scale successful domain types"),
           ("month_7_12", "Focus on premium domain acquisitions"),
           ("year_2", "Expand to expired domain auctions")] }

/-- C1: on an empty filtered-candidate list, `create_flipping_strategy`
faults with a division-by-zero condition while computing `roi_percentage`
(0 / 0), instead of returning an explicit empty-portfolio result. -/
theorem create_flipping_strategy_empty_faults :
    create_flipping_strategy [] = Except.error "ZeroDivisionError: division by zero" :=
  rfl

/-- C2: the keyword "ai" scores 50 (base) + 30 (technology) + 20 (length ≤ 8)
= 100 with no business bonus, and is classified in the high commercial-value
bucket (the code's "$1000+" string for the "high" key). -/
theorem trend_ai_score_and_value :
    calculate_trend_potential "ai" = 100 ∧ estimate_commercial_value "ai" = "$1000+" :=
  ⟨rfl, rfl⟩

/-- C4: for "ai.com" the estimated value is 800 (100 base + 200 for .com +
300 for a label of length 2 ≤ 6 + 200 for the substring "ai"), the profit
potential is 15 × min(800/100, 50) − 15 = 105, and the sell time bucket is
"1-3 months". -/
theorem ai_com_valuation :
    estimate_domain_value "ai.com" = 800 ∧
    calculate_profit_potential "ai.com" = 105 ∧
    estimate_sell_time "ai.com" = "1-3 months" := by
  have h1 : estimate_domain_value "ai.com" = 800 := by decide
  refine ⟨h1, ?_, by decide⟩
  simp only [calculate_profit_potential, h1]
  norm_num [min_def, max_def]

/-- Modelled from the spec's DomainGenerator contract (for comparison with
the source definition): 8 single-keyword variants for each of the top 10
keywords, then for indices i from 0..4 and j from i+1..7 the concatenated
and hyphenated combinations under .com. -/
def generateDomainIdeasSpec (ks : List TrendRecord) : List String :=
  ((ks.take 10).flatMap (fun t =>
    [t.keyword ++ ".com", t.keyword ++ ".ai", t.keyword ++ ".io",
     "get" ++ t.keyword ++ ".com", "use" ++ t.keyword ++ ".com",
     t.keyword ++ "app.com", t.keyword ++ "tool.com", t.keyword ++ "pro.com"])) ++
  ((List.range 5).flatMap (fun i =>
    ((List.range 8).drop (i + 1)).flatMap (fun j =>
      match ks[i]?, ks[j]? with
      | some t1, some t2 =>
          [t1.keyword ++ t2.keyword ++ ".com",
           t1.keyword ++ "-" ++ t2.keyword ++ ".com"]
      | _, _ => [])))

/-- C3: on any ranked keyword list with at least 10 entries,
`generate_domain_ideas` emits exactly the variants of the spec contract, in
the spec's deterministic order, duplicates included: 8 single-keyword
variants for each of the top 10 keywords, then for i from 0..4 and
j from i+1..7 the 2 combination variants under .com. -/
theorem generate_domain_ideas_matches_spec
    (t0 t1 t2 t3 t4 t5 t6 t7 t8 t9 : TrendRecord) (rest : List TrendRecord) :
    generate_domain_ideas (t0 :: t1 :: t2 :: t3 :: t4 :: t5 :: t6 :: t7 :: t8 :: t9 :: rest) =
      generateDomainIdeasSpec
        (t0 :: t1 :: t2 :: t3 :: t4 :: t5 :: t6 :: t7 :: t8 :: t9 :: rest) :=
  rfl

/-- C10: `calculate_trend_potential` always lies between 50 and 100. -/
theorem trend_potential_between_50_and_100 (trend : String) :
    50 ≤ calculate_trend_potential trend ∧ calculate_trend_potential trend ≤ 100 := by
  simp only [calculate_trend_potential]
  refine ⟨?_, min_le_right _ _⟩
  split_ifs <;> omega

/-- The mergeSort used in `find_trending_keywords` yields a list that is
pairwise non-increasing in `score`. -/
theorem pairwise_mergeSort_score (l : List TrendRecord) :
    (l.mergeSort (fun a b => decide (b.score ≤ a.score))).Pairwise
      (fun a b => b.score ≤ a.score) := by
  refine List.Pairwise.imp (fun h => of_decide_eq_true h) ?_
  apply List.sorted_mergeSort
  · intro a b c hab hbc
    exact decide_eq_true (le_trans (of_decide_eq_true hbc) (of_decide_eq_true hab))
  · intro a b
    simp only [Bool.or_eq_true, decide_eq_true_eq]
    exact le_total b.score a.score

/-- The mergeSort used in `evaluate_domains` yields a list that is pairwise
non-increasing in `profit_potential`. -/
theorem pairwise_mergeSort_profit (l : List Evaluation) :
    (l.mergeSort (fun a b => decide (b.profit_potential ≤ a.profit_potential))).Pairwise
      (fun a b => b.profit_potential ≤ a.profit_potential) := by
  refine List.Pairwise.imp (fun h => of_decide_eq_true h) ?_
  apply List.sorted_mergeSort
  · intro a b c hab hbc
    exact decide_eq_true (le_trans (of_decide_eq_true hbc) (of_decide_eq_true hab))
  · intro a b
    simp only [Bool.or_eq_true, decide_eq_true_eq]
    exact le_total b.profit_potential a.profit_potential

/-- C9: `find_trending_keywords` returns at most 20 records, sorted in
non-increasing order of `score`, for every network-derived trend list. -/
theorem find_trending_keywords_capped_sorted (github_trends : List String) :
    (find_trending_keywords github_trends).length ≤ 20 ∧
    (find_trending_keywords github_trends).Pairwise (fun a b => b.score ≤ a.score) := by
  constructor
  · simp only [find_trending_keywords, List.length_take]
    exact min_le_left _ _
  · simp only [find_trending_keywords]
    exact List.Pairwise.sublist (List.take_sublist _ _) (pairwise_mergeSort_score _)

/-- C7: `search_repos` returns the body's result list exactly when the
status is 200, and the empty list for every other status; it is a total
function of the response (no retry, no raised error). -/
theorem search_repos_status_cases (response : HttpResponse) :
    (response.status_code = 200 → search_repos response = response.items.getD []) ∧
    (response.status_code ≠ 200 → search_repos response = []) := by
  constructor <;> intro h <;> simp [search_repos, h]

/-- Witness for C7: a 200 response with one item returns that item, and a
404 response returns the empty list. -/
theorem search_repos_status_cases_witness :
    search_repos ⟨200, some [⟨"repo", none⟩]⟩ = [⟨"repo", none⟩] ∧
    search_repos ⟨404, some [⟨"repo", none⟩]⟩ = [] :=
  ⟨(search_repos_status_cases ⟨200, some [⟨"repo", none⟩]⟩).1 rfl,
   (search_repos_status_cases ⟨404, some [⟨"repo", none⟩]⟩).2 (by decide)⟩

/-- C8: `extract_keywords` returns exactly the first 5 of the whitespace
tokens of the lowercased, hyphen-replaced name+description text that are
longer than 3 characters and purely alphabetic — `List.filter` keeps
duplicates and preserves order and `List.take` drops nothing before the cap,
so tokens are neither deduplicated nor reordered; consequently the result
has at most 5 tokens, each passing the length and alphabetic check. -/
theorem extract_keywords_exact_filter_take (repo : Repo) :
    extract_keywords repo =
      ((keywordTokens repo).filter
        (fun word => decide (3 < word.length) && word.toList.all Char.isAlpha)).take 5 ∧
    (extract_keywords repo).length ≤ 5 ∧
    (extract_keywords repo).all
      (fun word => decide (3 < word.length) && word.toList.all Char.isAlpha) = true := by
  refine ⟨rfl, ?_, ?_⟩
  · simp only [extract_keywords, List.length_take]
    exact min_le_left _ _
  · rw [List.all_eq_true]
    intro w hw
    exact (List.mem_filter.1 (List.mem_of_mem_take hw)).2

/-- C6: `calculate_profit_potential` is monotone in the underlying
estimated value and never negative. -/
theorem profit_monotone_and_nonneg :
    (∀ d1 d2 : String, estimate_domain_value d1 ≤ estimate_domain_value d2 →
      calculate_profit_potential d1 ≤ calculate_profit_potential d2) ∧
    (∀ d : String, 0 ≤ calculate_profit_potential d) := by
  constructor
  · intro d1 d2 h
    have h' : ((estimate_domain_value d1 : ℚ)) ≤ ((estimate_domain_value d2 : ℚ)) := by
      exact_mod_cast h
    simp only [calculate_profit_potential]
    refine max_le_max (sub_le_sub_right ?_ _) le_rfl
    refine mul_le_mul_of_nonneg_left (min_le_min ?_ le_rfl) (by norm_num)
    exact (div_le_div_iff_of_pos_right (by norm_num)).2 h'
  · intro d
    exact le_max_right _ _

/-- Witness for C6: "x.io" has estimated value 500 ≤ 800 ("ai.com"), and the
profit potentials compare accordingly; the profit of "ai.com" is nonnegative. -/
theorem profit_monotone_and_nonneg_witness :
    calculate_profit_potential "x.io" ≤ calculate_profit_potential "ai.com" ∧
    (0 : ℚ) ≤ calculate_profit_potential "ai.com" :=
  ⟨profit_monotone_and_nonneg.1 "x.io" "ai.com" (by decide),
   profit_monotone_and_nonneg.2 "ai.com"⟩

/-- A fold that adds 200 for each matching keyword gains at most 200 per
list element. -/
theorem foldl_bonus_le (p : String → Bool) (l : List String) (b : Nat) :
    l.foldl (fun acc keyword => if p keyword then acc + 200 else acc) b ≤
      b + 200 * l.length := by
  induction l generalizing b with
  | nil => simp
  | cons x xs ih =>
    simp only [List.foldl_cons, List.length_cons]
    calc xs.foldl (fun acc keyword => if p keyword then acc + 200 else acc)
          (if p x then b + 200 else b) ≤
          (if p x then b + 200 else b) + 200 * xs.length := ih _
      _ ≤ b + 200 * (xs.length + 1) := by split_ifs <;> omega

/-- The valuation heuristic is bounded: at most 100 base + 200 TLD +
300 length + 6 × 200 keyword bonuses. -/
theorem estimate_domain_value_le_1800 (domain : String) :
    estimate_domain_value domain ≤ 1800 := by
  simp only [estimate_domain_value]
  refine le_trans (foldl_bonus_le _ _ _) ?_
  simp only [List.length_cons, List.length_nil]
  split_ifs <;> omega

/-- With the estimated value capped at 1800, the profit formula is capped
at 15 × 18 − 15 = 255; in particular it never exceeds 500. -/
theorem calculate_profit_potential_le_255 (domain : String) :
    calculate_profit_potential domain ≤ 255 := by
  have h : ((estimate_domain_value domain : ℚ)) ≤ 1800 := by
    exact_mod_cast estimate_domain_value_le_1800 domain
  simp only [calculate_profit_potential]
  refine max_le ?_ (by norm_num)
  have hm : min ((estimate_domain_value domain : ℚ) / 100) 50 ≤ 18 :=
    le_trans (min_le_left _ _) (by linarith)
  nlinarith [hm]

/-- Because no domain string can reach a profit potential above 500, the
`> 500` filter in `evaluate_domains` discards every candidate: the
function returns the empty list on every input. -/
theorem evaluate_domains_eq_nil (domain_ideas : List String) :
    evaluate_domains domain_ideas = [] := by
  simp only [evaluate_domains]
  have hf : (List.filter (fun e => decide ((500 : ℚ) < e.profit_potential))
      ((domain_ideas.take 50).map (fun domain =>
        { domain := domain
          estimated_value := estimate_domain_value domain
          registration_cost := "$12-15"
          profit_potential := calculate_profit_potential domain
          time_to_sell := estimate_sell_time domain
          marketing_strategy := create_domain_marketing domain : Evaluation }))) = [] := by
    rw [List.filter_eq_nil_iff]
    intro e he
    simp only [List.mem_map] at he
    obtain ⟨d, _, rfl⟩ := he
    simp only [decide_eq_true_eq, not_lt]
    exact le_trans (calculate_profit_potential_le_255 d) (by norm_num)
  rw [hf]
  exact List.mergeSort_nil

/-- Counterexample for C5: on the candidate list ["ai.com"] the pipeline
produces no portfolio at all — the filtered list is empty, so
`create_flipping_strategy` faults with the division-by-zero condition
instead of returning a strategy. -/
theorem pipeline_produces_no_portfolio :
    create_flipping_strategy (evaluate_domains ["ai.com"]) =
      Except.error "ZeroDivisionError: division by zero" := by
  rw [evaluate_domains_eq_nil]
  rfl

/-- C5 (amended): for every candidate list, the filtered-sorted list built
by `evaluate_domains` retains only entries with profit potential above 500
and is pairwise non-increasing in profit potential, and its 20-entry
truncation — the portfolio `create_flipping_strategy` takes — has length at
most 20; `create_flipping_strategy` itself faults when the filtered list is
empty rather than packaging the portfolio. -/
theorem evaluated_portfolio_filtered_sorted_capped (domain_ideas : List String) :
    (evaluate_domains domain_ideas).all
      (fun e => decide ((500 : ℚ) < e.profit_potential)) = true ∧
    (evaluate_domains domain_ideas).Pairwise
      (fun a b => b.profit_potential ≤ a.profit_potential) ∧
    ((evaluate_domains domain_ideas).take 20).length ≤ 20 := by
  refine ⟨?_, ?_, ?_⟩
  · rw [List.all_eq_true]
    intro e he
    simp only [evaluate_domains, List.mem_mergeSort] at he
    exact (List.mem_filter.1 he).2
  · simp only [evaluate_domains]
    exact pairwise_mergeSort_profit _
  · simp only [List.length_take]
    exact min_le_left _ _
